import Mathlib

/-!
# Verification of the `graph_mvcc` transactional graph engine

A shallow embedding of `src/lib.rs` of the `graph_mvcc` crate: an in-memory
graph with transactions, an MVCC record store, and commit/rollback logic.

Modelling conventions, each justified against the Rust source:

* `NodeId` and `EdgeId` are minted in the source with `Uuid::new_v4()`
  truncated to eight characters — an ambient source of (assumed-fresh)
  identifiers.  The model mints both families from one counter
  (`Graph.next_uid`), which satisfies the same freshness contract and keeps
  the two families disjoint.  No claim depends on identifier values.
* The Rust `Node` struct contains only its `NodeId`, so nodes are modelled
  directly as their identifier (a `Nat`).
* `HashMap`/`HashSet`/`BTreeSet` collections are modelled as Lean lists with
  membership-tested insertion (no duplicates).  The source only ever observes
  these collections through `contains`/`get`/iteration with `any`-style
  bodies, or through loops whose body has no observable effect (see
  `Graph.set_transaction_expiration`), so iteration order is never
  observable in the operations the claims exercise; the one exception, the
  `Vec` values of `adjacencylist`, is kept in exact `push` order because
  `TypePath::next` reads the *first* entry of that vector.
* A versioned record in the source is a `BTreeMap<MVCC, u32>`; the maps
  stored in `Graph.records` only ever use the keys `TransactionCreationId`,
  `TransactionExpirationId`, `TransactionExpired` and `ElementId`, so a
  record is modelled as a structure of four optional fields.  The maps
  stored in `TransactionId.rollback_actions` are always singletons
  (`add_record` and `delete_record` each insert a one-entry map), so a
  rollback action is modelled as a single `MVCC × Nat` pair;
  `rollback_transaction` reads exactly that first entry.
* `Result<T, TxError>` is `Except TxError T`.  The diagnostic string inside
  `TxError.Collision` is reproduced without the quote characters that the
  Rust `format!` places around the edge type; the spec declares the message
  "diagnostic only, not load-bearing".
-/

namespace GraphMvcc

/-- The `MVCC` enum of the source (`lib.rs` 258–266), in declaration order,
which is also its `Ord` order. -/
inductive MVCC where
  | TransactionCreationId
  | TransactionExpirationId
  | TransactionExpired
  | AddElementToTransaction
  | DeleteElementFromTransaction
  | ElementId
deriving DecidableEq, Repr

/-- The `TxError` enum of the source (`lib.rs` 56–64). -/
inductive TxError where
  | Abort
  | DatabaseFailure
  | NodeNotFound
  | ElementNotFound
  | Collision (msg : String)
  | InvalidRecord
  | TransactionLocked
deriving DecidableEq, Repr

/-- `TxResult<T> = Result<T, TxError>` (`lib.rs` 53). -/
abbrev TxResult (α : Type) : Type := Except TxError α

/-- Decidable equality for `Except`, needed to evaluate result comparisons
by `decide`. -/
def exceptEqDec {ε α : Type} [DecidableEq ε] [DecidableEq α] :
    (a b : Except ε α) → Decidable (a = b)
  | Except.error e₁, Except.error e₂ =>
      if h : e₁ = e₂ then isTrue (by rw [h])
      else isFalse (fun hh => h (Except.error.inj hh))
  | Except.error _, Except.ok _ => isFalse (fun hh => Except.noConfusion hh)
  | Except.ok _, Except.error _ => isFalse (fun hh => Except.noConfusion hh)
  | Except.ok a₁, Except.ok a₂ =>
      if h : a₁ = a₂ then isTrue (by rw [h])
      else isFalse (fun hh => h (Except.ok.inj hh))

instance {ε α : Type} [DecidableEq ε] [DecidableEq α] :
    DecidableEq (Except ε α) := exceptEqDec

/-- The `Edge` struct (`lib.rs` 108–112): a minted identifier plus the
edge-type label. -/
structure Edge where
  id : Nat
  edgetype : String
deriving DecidableEq, Repr

/-- A versioned record: a `BTreeMap<MVCC, u32>` restricted to the four keys
that the source ever stores in `Graph.records`.  A `none` field models an
absent key. -/
structure Record where
  creator : Option Nat := none
  expirer : Option Nat := none
  expired : Option Nat := none
  elementId : Option Nat := none
deriving DecidableEq, Repr

/-- The `TransactionId` struct (`lib.rs` 280–285). -/
structure TransactionId where
  txid : Nat
  rollback_actions : List (MVCC × Nat)
  read_locks : List (Nat × String)
  snapshot : Option (List Record)
deriving DecidableEq, Repr

/-- `TransactionId::new` (`lib.rs` 287–294). -/
def TransactionId.new (txid : Nat) : TransactionId :=
  { txid := txid, rollback_actions := [], read_locks := [], snapshot := none }

/-- The `Graph` struct (`lib.rs` 149–155), plus the identifier-minting
counter `next_uid` standing in for the ambient `Uuid` generator. -/
structure Graph where
  nodes : List Nat
  adjacencylist : List (Nat × List (Nat × Edge))
  next_transaction_id : Nat
  active_transactions : List Nat
  records : List Record
  next_uid : Nat
deriving DecidableEq, Repr

/-- Set-style insertion for the list-modelled `HashSet`/`BTreeSet`
collections: add the element only if it is not already present. -/
def setInsert {α : Type} [BEq α] (l : List α) (x : α) : List α :=
  if l.contains x then l else l ++ [x]

/-- Set-style removal: drop every occurrence of `x` (a set holds at most
one). -/
def setRemove (l : List Nat) (x : Nat) : List Nat :=
  l.filter (fun y => y != x)

/-- Replace the value bound to key `k` in an association list (used for the
`adjacencylist` map). -/
def updateAssoc {β : Type} (l : List (Nat × β)) (k : Nat) (v : β) :
    List (Nat × β) :=
  match l with
  | [] => []
  | (k₂, v₂) :: rest =>
      if k₂ = k then (k, v) :: rest else (k₂, v₂) :: updateAssoc rest k v

namespace Graph

/-- `Graph::new` (`lib.rs` 170–178). -/
def new : Graph :=
  { nodes := [], adjacencylist := [], next_transaction_id := 0,
    active_transactions := [], records := [], next_uid := 0 }

/-- `Graph::start_transaction` (`lib.rs` 359–370): increment the counter,
mark the new txid active, and hand out a fresh transaction object. -/
def start_transaction (g : Graph) : Graph × TransactionId :=
  let next := g.next_transaction_id + 1
  ({ g with
      next_transaction_id := next,
      active_transactions := setInsert g.active_transactions next },
   TransactionId.new next)

/-- `Graph::record_is_visible` (`lib.rs` 509–526), transcribed clause by
clause: a record is invisible when its creator is a *currently active*
transaction other than the caller, or when its expirer is nonzero and
either not currently active or the record was *created* by the caller. -/
def record_is_visible (g : Graph) (t : TransactionId) (r : Record) : Bool :=
  if (match r.creator with
      | some creation_id =>
          g.active_transactions.contains creation_id && creation_id != t.txid
      | none => false) then
    false
  else if (match r.expirer with
      | some expiration_id =>
          expiration_id != 0 &&
            (!(g.active_transactions.contains expiration_id) ||
              r.creator == some t.txid)
      | none => false) then
    false
  else
    true

/-- `Graph::create_snapshot` (`lib.rs` 544–554): the set of records visible
to `t` at this moment. -/
def create_snapshot (g : Graph) (t : TransactionId) : List Record :=
  g.records.filter (fun r => record_is_visible g t r)

/-- The `if t.snapshot.is_none() { t.snapshot = Some(...) }` prologue shared
by `add_node`, `add_edge` and `get_nodes_internal`. -/
def ensureSnapshot (g : Graph) (t : TransactionId) : TransactionId :=
  match t.snapshot with
  | some _ => t
  | none => { t with snapshot := some (g.create_snapshot t) }

/-- `Graph::add_node` (`lib.rs` 180–194): ensure the snapshot, mint a fresh
node, insert it into the node map with no edges, and record a
`NODE_CREATION` read lock.  Returns the updated graph, the updated
transaction object, and the minted node. -/
def add_node (g : Graph) (t : TransactionId) :
    Graph × TransactionId × Nat :=
  let t₁ := ensureSnapshot g t
  let minted := g.next_uid
  let g₁ := { g with
      next_uid := g.next_uid + 1,
      nodes := setInsert g.nodes minted }
  let t₂ := { t₁ with
      read_locks := setInsert t₁.read_locks (minted, "NODE_CREATION") }
  (g₁, t₂, minted)

/-- `Graph::has_collision_excluding_destination` (`lib.rs` 765–772): does
the source node carry an adjacency entry of the given type whose
destination differs from `to`? -/
def has_collision_excluding_destination (g : Graph) (src dst : Nat)
    (edge_type : String) : Bool :=
  match g.adjacencylist.lookup src with
  | some edges =>
      edges.any (fun p => p.1 != dst && p.2.edgetype == edge_type)
  | none => false

/-- `Graph::set_directed_edge` (`lib.rs` 219–224): push `(to, edge)` onto
the source node's adjacency vector (creating it if absent). -/
def set_directed_edge (g : Graph) (src dst : Nat) (edge : Edge) : Graph :=
  match g.adjacencylist.lookup src with
  | some edges =>
      { g with adjacencylist :=
          updateAssoc g.adjacencylist src (edges ++ [(dst, edge)]) }
  | none =>
      { g with adjacencylist := g.adjacencylist ++ [(src, [(dst, edge)])] }

/-- The diagnostic text of the collision error raised by `add_edge`
(`lib.rs` 205); the Rust message additionally wraps the edge type in
single quotes. -/
def collisionMsg (edge_type : String) : String :=
  "edge type " ++ edge_type ++ " already exists for source node"

/-- `Graph::add_edge` (`lib.rs` 196–217): ensure the snapshot, run the
collision check against the *current global* adjacency list, then record
read locks on both endpoints, mint one `Edge`, and push it symmetrically
onto both adjacency vectors. -/
def add_edge (g : Graph) (t : TransactionId) (src dst : Nat)
    (edge_type : String) : Graph × TransactionId × TxResult Unit :=
  let t₁ := ensureSnapshot g t
  if g.has_collision_excluding_destination src dst edge_type then
    (g, t₁, Except.error (TxError.Collision (collisionMsg edge_type)))
  else
    let locks := setInsert (setInsert t₁.read_locks (src, edge_type)) (dst, edge_type)
    let t₂ := { t₁ with read_locks := locks }
    let minted_edge : Edge := { id := g.next_uid, edgetype := edge_type }
    let g₁ := { g with next_uid := g.next_uid + 1 }
    let g₂ := (g₁.set_directed_edge src dst minted_edge).set_directed_edge
        dst src minted_edge
    (g₂, t₂, Except.ok ())

/-- The loop of `TypePath::next` (`lib.rs` 320–337), unrolled.  Each step
looks up the current node's adjacency vector (terminating if the node has
none), pops the *last* element of the remaining type list (`Vec::pop`
removes from the end, so the argument here is the reversed search path),
inspects only the *first* adjacency entry, and continues exactly when that
entry's type matches. -/
def typePathLoop (g : Graph) (node : Nat) :
    List String → List Nat
  | [] =>
      match g.adjacencylist.lookup node with
      | some _ => []
      | none => []
  | current_type :: rest =>
      match g.adjacencylist.lookup node with
      | none => []
      | some edges =>
          match edges with
          | [] => []
          | (next, edge) :: _ =>
              if edge.edgetype == current_type then
                next :: typePathLoop g next rest
              else
                []

/-- `Graph::traverse_with_snapshot` (`lib.rs` 241–252): despite its name it
ignores `t.snapshot` entirely and drives `TypePath` over the live global
adjacency list.  `TypePath` consumes `type_list` with `Vec::pop`, i.e. from
the end, hence the reversal here. -/
def traverse_with_snapshot (g : Graph) (t : TransactionId) (origin : Nat)
    (search_path : List String) : List Nat :=
  typePathLoop g origin search_path.reverse

/-- `Graph::get_nodes_internal` (`lib.rs` 226–239): record a read lock on
the origin for every edge type of the path, ensure the snapshot, and
traverse. -/
def get_nodes_internal (g : Graph) (t : TransactionId) (origin : Nat)
    (search_path : List String) : TransactionId × List Nat :=
  let t₁ := search_path.foldl
      (fun acc edge_type => { acc with
          read_locks := setInsert acc.read_locks (origin, edge_type) }) t
  let t₂ := ensureSnapshot g t₁
  (t₂, g.traverse_with_snapshot t₂ origin search_path)

/-- `Graph::add_record` (`lib.rs` 460–469): stamp the record with
`creator = t.txid`, `expirer = 0`, push a `DeleteElementFromTransaction`
rollback action holding the current record count, and insert the record.
Returns the graph, the transaction, and the stamped record (the Rust
function mutates the caller's map in place). -/
def add_record (g : Graph) (t : TransactionId) (record : Record) :
    Graph × TransactionId × Record :=
  let stamped := { record with creator := some t.txid, expirer := some 0 }
  let action : MVCC × Nat := (MVCC.DeleteElementFromTransaction, g.records.length)
  let t₁ := { t with rollback_actions := setInsert t.rollback_actions action }
  ({ g with records := setInsert g.records stamped }, t₁, stamped)

/-- `Graph::set_transaction_expiration` (`lib.rs` 381–396).  The Rust loop
walks to position `pos`, clones that record, inserts
`MVCC::TransactionExpired ↦ n` into the clone, and `break`s — the clone is
never written back into `records` (the source itself notes that a proper
implementation "would need to replace the item in the BTreeSet").  The
function therefore has no observable effect on the graph; the discarded
clone is kept here as a dead binding to mirror the source. -/
def set_transaction_expiration (g : Graph) (pos n : Nat) : Graph :=
  let _updated_item := (g.records.get? pos).map
      (fun item => { item with expired := some n })
  g

/-- The loop body of `Graph::rollback_transaction` (`lib.rs` 608–628): walk
the rollback actions, dispatching on the action's (single) key; an
unrecognised key makes the Rust function `return Err(InvalidRecord)`
immediately, *before* the active-set removal. -/
def rollbackLoop (t : TransactionId) (g : Graph) :
    List (MVCC × Nat) → Graph × Option TxError
  | [] => (g, none)
  | (action_type, pos) :: rest =>
      match action_type with
      | MVCC.AddElementToTransaction =>
          rollbackLoop t (g.set_transaction_expiration pos 0) rest
      | MVCC.DeleteElementFromTransaction =>
          rollbackLoop t (g.set_transaction_expiration pos t.txid) rest
      | _ => (g, some TxError.InvalidRecord)

/-- `Graph::rollback_transaction` (`lib.rs` 608–628): run the undo loop
over `rollback_actions` in reverse and, if no action was malformed, remove
the transaction from the active set. -/
def rollback_transaction (g : Graph) (t : TransactionId) :
    Graph × TxResult Unit :=
  match rollbackLoop t g t.rollback_actions.reverse with
  | (g₁, some e) => (g₁, Except.error e)
  | (g₁, none) =>
      ({ g₁ with active_transactions := setRemove g₁.active_transactions t.txid },
       Except.ok ())

/-- `Graph::abort_transaction` (`lib.rs` 568–570). -/
def abort_transaction (g : Graph) (t : TransactionId) :
    Graph × TxResult Unit :=
  g.rollback_transaction t

/-- `Graph::has_conflicting_write` (`lib.rs` 584–606): scan `records` for a
record carrying both a creator and an expirer whose creator is a *different,
larger* txid with expirer `0`.  The `node_id`/`edge_type` arguments are
accepted but never consulted (the source comment says "for now, we'll
assume conflict"). -/
def has_conflicting_write (g : Graph) (t : TransactionId) (node_id : Nat)
    (edge_type : String) : Bool :=
  g.records.any (fun r =>
    match r.creator, r.expirer with
    | some creation_id, some expiration_id =>
        if creation_id == t.txid then false
        else creation_id > t.txid && expiration_id == 0
    | _, _ => false)

/-- `Graph::has_read_lock_conflicts` (`lib.rs` 572–582). -/
def has_read_lock_conflicts (g : Graph) (t : TransactionId) : Bool :=
  t.read_locks.any (fun p => g.has_conflicting_write t p.1 p.2)

/-- `Graph::commit_transaction` (`lib.rs` 556–566): on a read-lock conflict
roll back (keeping the rolled-back state) and return `Abort`; otherwise
remove the transaction from the active set and succeed. -/
def commit_transaction (g : Graph) (t : TransactionId) :
    Graph × TxResult Unit :=
  if g.has_read_lock_conflicts t then
    ((g.rollback_transaction t).1, Except.error TxError.Abort)
  else
    ({ g with active_transactions := setRemove g.active_transactions t.txid },
     Except.ok ())

/-- `Graph::find_node_by_id` (`lib.rs` 714–721): since a node is exactly
its identifier, resolution is membership in the node map. -/
def find_node_by_id (g : Graph) (node_id : Nat) : Option Nat :=
  if g.nodes.contains node_id then some node_id else none

/-- `<Graph as IGraph>::get_nodes` with an explicit transaction
(`lib.rs` 691–709, `Some` branch): resolve the origin in the node map
 (returning `NodeNotFound` when absent), then run the internal traversal
and return its nodes. -/
def iget_nodes (g : Graph) (t : TransactionId) (origin : Nat)
    (search_path : List String) : TxResult (List Nat) :=
  match g.find_node_by_id origin with
  | none => Except.error TxError.NodeNotFound
  | some origin_node =>
      Except.ok (g.get_nodes_internal t origin_node search_path).2

end Graph

/-! ## A trace model of engine runs

Claims C3–C5 speak about temporal notions ("committed before `T` began",
"concurrent transactions").  The following small interpreter runs a list of
caller operations against the embedded engine, recording at which step each
transaction began and at which step each commit succeeded.  The graph/
transaction transitions are exactly the embedded source operations; the
`beganAt`/`committedAt` logs are ghost data used only to *state* temporal
properties. -/

/-- One caller-visible operation of an engine run.  Transactions are named
by their index in the order they were begun. -/
inductive TraceOp where
  | beginTx
  | addRec (txIdx elemId : Nat)
  | commitTx (txIdx : Nat)
deriving DecidableEq, Repr

/-- The state of a run: the engine, each transaction object (by begin
order), a step counter, and the ghost begin/commit logs. -/
structure TraceState where
  graph : Graph
  txs : List TransactionId
  time : Nat
  beganAt : List (Nat × Nat)
  committedAt : List (Nat × Nat)
deriving DecidableEq, Repr

/-- The initial run state: a fresh engine, no transactions yet. -/
def TraceState.init : TraceState :=
  { graph := Graph.new, txs := [], time := 0, beganAt := [], committedAt := [] }

/-- Execute one operation.  An out-of-range transaction index only advances
the clock. -/
def traceStep (s : TraceState) : TraceOp → TraceState
  | TraceOp.beginTx =>
      let p := s.graph.start_transaction
      { graph := p.1, txs := s.txs ++ [p.2], time := s.time + 1,
        beganAt := s.beganAt ++ [(p.2.txid, s.time)],
        committedAt := s.committedAt }
  | TraceOp.addRec i e =>
      match s.txs.get? i with
      | none => { s with time := s.time + 1 }
      | some t =>
          let p := s.graph.add_record t { elementId := some e }
          { s with graph := p.1, txs := s.txs.set i p.2.1, time := s.time + 1 }
  | TraceOp.commitTx i =>
      match s.txs.get? i with
      | none => { s with time := s.time + 1 }
      | some t =>
          let p := s.graph.commit_transaction t
          let log :=
            if p.2 = Except.ok () then s.committedAt ++ [(t.txid, s.time)]
            else s.committedAt
          { s with graph := p.1, time := s.time + 1, committedAt := log }

/-- Run a list of operations from the initial state. -/
def runTrace (ops : List TraceOp) : TraceState :=
  ops.foldl traceStep TraceState.init

/-- Did transaction `c` commit at a step strictly before transaction `tb`
began? -/
def TraceState.committedBeforeBegan (s : TraceState) (c tb : Nat) : Bool :=
  s.committedAt.any (fun p =>
    p.1 == c && s.beganAt.any (fun q => q.1 == tb && p.2 < q.2))

/-- Spec §4.4 visibility, transcribed from the specification's words (not
from the source), for comparison with `Graph.record_is_visible`:
V1 — the creator is `T` itself or committed before `T` began; and
V2 — the expirer is 0, or is not `T` and had not committed before `T`
began. -/
def specVisible (s : TraceState) (t : TransactionId) (r : Record) : Bool :=
  (match r.creator with
   | some c => c == t.txid || s.committedBeforeBegan c t.txid
   | none => false) &&
  (match r.expirer with
   | some e => e == 0 || (e != t.txid && !(s.committedBeforeBegan e t.txid))
   | none => true)

/-! ## Concrete scenario states

Straight-line runs of the embedded operations used by the individual
claims.  Node identifiers are minted as `0, 1, 2, …` in creation order. -/

/-- C1 scenario: one transaction creates nodes `0, 1, 2`, then runs
`add_edge 0 2 "x"` followed by `add_edge 1 2 "x"`.  The final component
retains both `add_edge` results. -/
def c1Run : Graph × TransactionId × (TxResult Unit × TxResult Unit) :=
  let p := Graph.new.start_transaction
  let q1 := p.1.add_node p.2
  let q2 := q1.1.add_node q1.2.1
  let q3 := q2.1.add_node q2.2.1
  let e1 := q3.1.add_edge q3.2.1 0 2 "x"
  let e2 := e1.1.add_edge e1.2.1 1 2 "x"
  (e2.1, e2.2.1, (e1.2.2, e2.2.2))

/-- C1 witness scenario: the graph after nodes `0, 1, 2` and a single
committed-in-flight `add_edge 0 2 "x"`, together with the acting
transaction. -/
def c1WitState : Graph × TransactionId :=
  let p := Graph.new.start_transaction
  let q1 := p.1.add_node p.2
  let q2 := q1.1.add_node q1.2.1
  let q3 := q2.1.add_node q2.2.1
  let e1 := q3.1.add_edge q3.2.1 0 2 "x"
  (e1.1, e1.2.1)

/-- C2 scenario: one transaction creates nodes `0, 1`, then runs
`add_edge 0 1 "x"` twice.  The final component retains both results. -/
def c2Run : Graph × TransactionId × (TxResult Unit × TxResult Unit) :=
  let p := Graph.new.start_transaction
  let q1 := p.1.add_node p.2
  let q2 := q1.1.add_node q1.2.1
  let e1 := q2.1.add_edge q2.2.1 0 1 "x"
  let e2 := e1.1.add_edge e1.2.1 0 1 "x"
  (e2.1, e2.2.1, (e1.2.2, e2.2.2))

/-- C2 witness scenario: the graph after nodes `0, 1` and one
`add_edge 0 1 "x"`, together with the acting transaction. -/
def c2WitState : Graph × TransactionId :=
  let p := Graph.new.start_transaction
  let q1 := p.1.add_node p.2
  let q2 := q1.1.add_node q1.2.1
  let e1 := q2.1.add_edge q2.2.1 0 1 "x"
  (e1.1, e1.2.1)

/-- C3 trace: transaction 1 begins; transaction 2 begins, inserts a record,
and commits — all *after* transaction 1 began. -/
def c3Trace : List TraceOp :=
  [TraceOp.beginTx, TraceOp.beginTx, TraceOp.addRec 1 7, TraceOp.commitTx 1]

/-- The run state of the C3 trace. -/
def c3State : TraceState := runTrace c3Trace

/-- The first transaction of the C3 trace (begun first, never operated
on, hence still its initial object). -/
def c3T1 : TransactionId := TransactionId.new 1

/-- The record inserted by transaction 2 in the C3 trace, as stamped by
`add_record`. -/
def c3Record : Record := { creator := some 2, expirer := some 0, elementId := some 7 }

/-- C4/C5 base state: a first transaction creates nodes `0, 1` and
commits. -/
def twoNodeBase : Graph :=
  let p := Graph.new.start_transaction
  let q1 := p.1.add_node p.2
  let q2 := q1.1.add_node q1.2.1
  (q2.1.commit_transaction q2.2.1).1

/-- C4 reader transaction: begun against the base state (txid 2). -/
def c4T1 : TransactionId := twoNodeBase.start_transaction.2

/-- C4 run A: transaction `c4T1` begins and immediately reads
`get_nodes(0, ["red"])`; nothing else happens. -/
def c4ReadA : List Nat :=
  (twoNodeBase.start_transaction.1.get_nodes_internal c4T1 0 ["red"]).2

/-- C4 run B: identical to run A except that after `c4T1` begins, a second
transaction begins, runs `add_edge 0 1 "red"`, and commits; then `c4T1`
performs the same read. -/
def c4ReadB : List Nat :=
  let p := twoNodeBase.start_transaction
  let q := p.1.start_transaction
  let e := q.1.add_edge q.2 0 1 "red"
  let c := e.1.commit_transaction e.2.1
  (c.1.get_nodes_internal c4T1 0 ["red"]).2

/-- C5 scenario: over the committed two-node base, transactions T1
(txid 2) and T2 (txid 3) both run `add_edge 0 1 "red"`, then both commit.
The components are: T1's add result, T2's add result, T1's commit result,
T2's commit result. -/
def c5Run : TxResult Unit × TxResult Unit × TxResult Unit × TxResult Unit :=
  let s1 := twoNodeBase.start_transaction
  let s2 := s1.1.start_transaction
  let e1 := s2.1.add_edge s1.2 0 1 "red"
  let e2 := e1.1.add_edge s2.2 0 1 "red"
  let k1 := e2.1.commit_transaction e1.2.1
  let k2 := k1.1.commit_transaction e2.2.1
  (e1.2.2, e2.2.2, k1.2, k2.2)

/-- C6 scenario: a transaction inserts a record and is then aborted.  The
components are: the graph before the abort, the stamped record, the graph
after the abort, and the abort result. -/
def c6Run : Graph × Record × Graph × TxResult Unit :=
  let p := Graph.new.start_transaction
  let a := p.1.add_record p.2 { elementId := some 42 }
  let ab := a.1.abort_transaction a.2.1
  (a.1, a.2.2, ab.1, ab.2)

/-- C7 scenario graph (spec S4): nodes `0, 1, 2`; `add_edge 0 1 "red"`;
`add_edge 1 2 "blue"`; commit. -/
def c7Graph : Graph :=
  let p := Graph.new.start_transaction
  let q1 := p.1.add_node p.2
  let q2 := q1.1.add_node q1.2.1
  let q3 := q2.1.add_node q2.2.1
  let e1 := q3.1.add_edge q3.2.1 0 1 "red"
  let e2 := e1.1.add_edge e1.2.1 1 2 "blue"
  (e2.1.commit_transaction e2.2.1).1

/-- C7 read: under a fresh transaction, `get_nodes(0, ["red","blue"])` on
the S4 graph. -/
def c7Read : List Nat :=
  let s := c7Graph.start_transaction
  (s.1.get_nodes_internal s.2 0 ["red", "blue"]).2

/-- C8 scenario: a first transaction creates node `0` and commits; a fresh
transaction then queries the empty path from node `0`. -/
def c8Run : TxResult (List Nat) :=
  let p := Graph.new.start_transaction
  let q := p.1.add_node p.2
  let c := q.1.commit_transaction q.2.1
  let s := c.1.start_transaction
  s.1.iget_nodes s.2 0 []

/-- C9 scenario: the first transaction of a fresh engine, and a record it
inserts. -/
def c9Run : TransactionId × Record :=
  let p := Graph.new.start_transaction
  let a := p.1.add_record p.2 { elementId := some 9 }
  (a.2.1, a.2.2)

/-- C10 witness scenario: a graph and a transaction whose rollback log
holds one `DeleteElementFromTransaction` action (from `add_record`). -/
def c10State : Graph × TransactionId :=
  let p := Graph.new.start_transaction
  let a := p.1.add_record p.2 { elementId := some 5 }
  (a.1, a.2.1)

/-! ## Helper lemmas -/

/-- `set_transaction_expiration` never changes the graph: the updated clone
is discarded. -/
theorem set_transaction_expiration_id (g : Graph) (pos n : Nat) :
    g.set_transaction_expiration pos n = g := rfl

/-- The rollback loop is the identity (with no error) as long as every
pending action is an `AddElementToTransaction` or
`DeleteElementFromTransaction` entry. -/
theorem rollbackLoop_wellFormed (t : TransactionId) (g : Graph)
    (l : List (MVCC × Nat))
    (h : ∀ a ∈ l, a.1 = MVCC.AddElementToTransaction ∨
        a.1 = MVCC.DeleteElementFromTransaction) :
    Graph.rollbackLoop t g l = (g, none) := by
  induction l generalizing g with
  | nil => rfl
  | cons a rest ih =>
      have ha := h a (List.mem_cons_self a rest)
      have hrest : ∀ b ∈ rest, b.1 = MVCC.AddElementToTransaction ∨
          b.1 = MVCC.DeleteElementFromTransaction :=
        fun b hb => h b (List.mem_cons_of_mem a hb)
      obtain ⟨ty, pos⟩ := a
      rcases ha with ha | ha <;>
        simp only at ha <;> subst ha <;>
        simpa [Graph.rollbackLoop, set_transaction_expiration_id] using
          ih g hrest

/-! ## Claim theorems -/

/-- Claim C1, counterexample.  One transaction creates nodes `0, 1, 2`;
`add_edge 0 2 "x"` and `add_edge 1 2 "x"` both return `ok`, and afterwards
node `2` carries two live adjacency entries of edge-type `"x"` with the
*different* targets `0` and `1` — all of them in the acting transaction's
view, refuting P1 as stated. -/
theorem C1_counterexample :
    c1Run.2.2 = (Except.ok (), Except.ok ()) ∧
    c1Run.1.adjacencylist.lookup 2 =
      some [(0, { id := 3, edgetype := "x" }), (1, { id := 4, edgetype := "x" })] ∧
    (0 : Nat) ≠ 1 := by
  decide

/-- Claim C1, amended: if the (global) adjacency list holds, at source `a`,
an entry of edge-type `ty` whose neighbour differs from `b`, then
`add_edge a b ty` returns `Collision`.  (The claimed consequence — that no
node ends up with two same-typed live entries towards different targets —
fails, because `add_edge` checks only the `a` side and the symmetric half
pushed onto `b` is never checked; see the counterexample.) -/
theorem C1_collision_on_foreign_target (g : Graph) (t : TransactionId)
    (a b c : Nat) (ty : String) (e : Edge) (es : List (Nat × Edge))
    (hlk : g.adjacencylist.lookup a = some es) (hmem : (c, e) ∈ es)
    (hne : c ≠ b) (hty : e.edgetype = ty) :
    (g.add_edge t a b ty).2.2 =
      Except.error (TxError.Collision (Graph.collisionMsg ty)) := by
  have hcol : g.has_collision_excluding_destination a b ty = true := by
    unfold Graph.has_collision_excluding_destination
    rw [hlk]
    exact List.any_eq_true.mpr ⟨(c, e), hmem, by simp [hne, hty]⟩
  simp [Graph.add_edge, hcol]

/-- Claim C1, witness: in the state holding nodes `0, 1, 2` and the edge
`(0, 2, "x")`, the call `add_edge 0 1 "x"` hits an entry at node `0` of
type `"x"` towards `2 ≠ 1` and returns `Collision`. -/
theorem C1_collision_on_foreign_target_witness :
    (c1WitState.1.add_edge c1WitState.2 0 1 "x").2.2 =
      Except.error (TxError.Collision (Graph.collisionMsg "x")) :=
  C1_collision_on_foreign_target c1WitState.1 c1WitState.2 0 1 2 "x"
    { id := 3, edgetype := "x" } [(2, { id := 3, edgetype := "x" })]
    (by decide) (by decide) (by decide) (by decide)

/-- Claim C2, counterexample.  The spec sequence `begin; n1, n2 = add_node;
add_edge(n1, n2, "x"); add_edge(n1, n2, "x")`: the second, exactly
duplicate call also returns `ok`, not `Collision`. -/
theorem C2_counterexample :
    c2Run.2.2 = (Except.ok (), Except.ok ()) := by
  decide

/-- Claim C2, amended: a repeated `add_edge a b ty` is *not* detected as a
duplicate — whenever every type-`ty` entry at `a` already points at `b`
(in particular when the exact edge `(a, b, ty)` already exists), the call
returns `ok` and inserts a second copy.  `Collision` arises only from a
same-typed entry towards a *different* target. -/
theorem C2_duplicate_not_detected (g : Graph) (t : TransactionId)
    (a b : Nat) (ty : String)
    (h : ∀ p ∈ (g.adjacencylist.lookup a).getD [],
        p.2.edgetype = ty → p.1 = b) :
    (g.add_edge t a b ty).2.2 = Except.ok () := by
  have hcol : g.has_collision_excluding_destination a b ty = false := by
    unfold Graph.has_collision_excluding_destination
    cases hlk : g.adjacencylist.lookup a with
    | none => rfl
    | some es =>
        refine List.any_eq_false.mpr (fun p hp => ?_)
        intro hcontra
        rw [Bool.and_eq_true] at hcontra
        have h1 : p.1 ≠ b := by simpa using hcontra.1
        have h2 : p.2.edgetype = ty := by simpa using hcontra.2
        exact h1 (h p (by rw [hlk]; simpa using hp) h2)
  simp [Graph.add_edge, hcol]

/-- Claim C2, witness: after one committed-in-flight `add_edge 0 1 "x"`,
every `"x"`-typed entry at node `0` targets `1`, so the duplicate call
returns `ok`. -/
theorem C2_duplicate_not_detected_witness :
    (c2WitState.1.add_edge c2WitState.2 0 1 "x").2.2 = Except.ok () :=
  C2_duplicate_not_detected c2WitState.1 c2WitState.2 0 1 "x" (by decide)

/-- Claim C3, counterexample.  In the run where transaction 1 begins, then
transaction 2 begins, inserts a record and commits, the inserted record is
*visible* to transaction 1 under the code's rule, although its creator
(transaction 2, which committed at step 3, after transaction 1 began at
step 0) fails the spec's V1 clause. -/
theorem C3_counterexample :
    c3State.txs.get? 0 = some c3T1 ∧
    (1, 0) ∈ c3State.beganAt ∧
    (2, 3) ∈ c3State.committedAt ∧
    c3Record ∈ c3State.graph.records ∧
    c3State.graph.record_is_visible c3T1 c3Record = true ∧
    specVisible c3State c3T1 c3Record = false := by
  decide

/-- Claim C3, amended: the code's visibility rule is stated against the
*current* active set, not against a snapshot frozen at the transaction's
birth: `r` is visible to `T` iff every creator field is `T` itself or not
currently active (committed *or aborted*, at *any* time), and every nonzero
expirer field is currently active with `r`'s *creator* (not expirer)
differing from `T`. -/
theorem C3_visibility_uses_current_active_set (g : Graph)
    (t : TransactionId) (r : Record) :
    g.record_is_visible t r = true ↔
      ((∀ c, r.creator = some c → c = t.txid ∨ c ∉ g.active_transactions) ∧
       (∀ e, r.expirer = some e → e ≠ 0 →
          e ∈ g.active_transactions ∧ r.creator ≠ some t.txid)) := by
  rcases hc : r.creator with _ | c <;> rcases he : r.expirer with _ | e <;>
    simp only [Graph.record_is_visible, hc, he] <;>
    split_ifs with h1 h2 <;>
    simp_all [List.elem_iff] <;>
    tauto

/-- Claim C4.  Two runs share the same committed base (nodes `0, 1`) and
the same reader transaction `c4T1`; they differ only in work begun and
committed by a second transaction *after* `c4T1` began.  The reader's
`get_nodes(0, ["red"])` nevertheless returns `[]` in one run and `[1]` in
the other: reads are not snapshot-stable, because the traversal walks the
live global adjacency list and ignores the transaction's snapshot. -/
theorem C4_read_depends_on_later_commit :
    c4ReadA = [] ∧ c4ReadB = [1] ∧ c4ReadA ≠ c4ReadB := by
  decide

/-- Claim C5.  Over a committed two-node base, transactions T1 and T2 both
successfully write the `(0, "red")` slot (via the duplicate-edge path,
which the collision check does not stop), and then *both* commits return
`ok` — first-committer-wins fails, because commit validation scans
`records`, which the graph write path never populates. -/
theorem C5_both_writers_commit :
    c5Run = (Except.ok (), Except.ok (), Except.ok (), Except.ok ()) := by
  decide

/-- Claim C6.  A transaction inserts a record and is aborted.  The abort
reports `ok` but the records collection is bit-for-bit unchanged: the
inserted record is still present with `expirer = 0` (not tombstoned with
the aborting transaction's id), and the engine is distinguishable from one
in which the transaction never ran (whose records would be `[]`). -/
theorem C6_abort_leaves_created_record_live :
    c6Run.2.2.2 = Except.ok () ∧
    c6Run.2.2.1.records = c6Run.1.records ∧
    c6Run.2.1 ∈ c6Run.2.2.1.records ∧
    c6Run.2.1.expirer = some 0 ∧
    c6Run.2.2.1.records ≠ Graph.new.records := by
  decide

/-- Claim C7.  The S4 graph holds the committed edges `(0, 1, "red")` and
`(1, 2, "blue")`, yet `get_nodes(0, ["red", "blue"])` under a fresh
transaction returns `[]` instead of `[2]`: the iterator consumes the type
path from its *end* (`Vec::pop`) and only ever inspects the first
adjacency entry of each node. -/
theorem C7_multihop_traversal_returns_nothing :
    c7Graph.adjacencylist.lookup 0 = some [(1, { id := 3, edgetype := "red" })] ∧
    c7Graph.adjacencylist.lookup 1 =
      some [(0, { id := 3, edgetype := "red" }), (2, { id := 4, edgetype := "blue" })] ∧
    c7Read = [] ∧ c7Read ≠ [2] := by
  decide

/-- Claim C8, counterexample.  Node `0` exists committed (hence visible to
the fresh reader), yet the empty-path query returns `ok []` — neither
`{origin}` nor `NodeNotFound`. -/
theorem C8_counterexample :
    c8Run = Except.ok [] ∧
    c8Run ≠ Except.ok [0] ∧
    c8Run ≠ Except.error TxError.NodeNotFound := by
  decide

/-- Claim C8, amended: `get_nodes` with the empty edge-type path returns
`ok []` (the empty set, not `{origin}`) whenever `origin` is a key of the
node map — visibility is not consulted — and `NodeNotFound` otherwise. -/
theorem C8_empty_path_returns_empty (g : Graph) (t : TransactionId)
    (origin : Nat) :
    g.iget_nodes t origin [] =
      if g.nodes.contains origin then Except.ok ([] : List Nat)
      else Except.error TxError.NodeNotFound := by
  unfold Graph.iget_nodes Graph.find_node_by_id
  by_cases h : g.nodes.contains origin = true
  · simp only [h, if_true]
    unfold Graph.get_nodes_internal Graph.traverse_with_snapshot
    cases hl : g.adjacencylist.lookup origin <;>
      simp [Graph.typePathLoop, hl]
  · simp only [Bool.not_eq_true] at h
    simp only [h, Bool.false_eq_true, if_false]

/-- Claim C9.  The very first transaction of a fresh engine is issued
TxId 1 — the "reserved" ids 1–3 are not skipped — and a record it creates
carries `creator = 1 < 4`. -/
theorem C9_reserved_ids_are_issued :
    (Graph.new.start_transaction).2.txid = 1 ∧
    (Graph.new.start_transaction).2.txid < 4 ∧
    c9Run.1.txid = 1 ∧
    c9Run.2.creator = some 1 := by
  decide

/-- Claim C10.  When every rollback action of `t` is an
`AddElementToTransaction` or `DeleteElementFromTransaction` entry,
`abort_transaction` returns `ok` and its only effect on the engine is
removing `t.txid` from the active-transaction set: the node map, adjacency
list and records collection (and both counters) are untouched, so
everything created under `t` stays resolvable and traversable. -/
theorem C10_abort_only_retires (g : Graph) (t : TransactionId)
    (h : ∀ a ∈ t.rollback_actions, a.1 = MVCC.AddElementToTransaction ∨
        a.1 = MVCC.DeleteElementFromTransaction) :
    g.abort_transaction t =
      ({ g with active_transactions := setRemove g.active_transactions t.txid },
       Except.ok ()) := by
  have hrev : ∀ a ∈ t.rollback_actions.reverse,
      a.1 = MVCC.AddElementToTransaction ∨
      a.1 = MVCC.DeleteElementFromTransaction :=
    fun a ha => h a (List.mem_reverse.mp ha)
  unfold Graph.abort_transaction Graph.rollback_transaction
  rw [rollbackLoop_wellFormed t g t.rollback_actions.reverse hrev]

/-- Claim C10, witness: a transaction whose rollback log holds one
`DeleteElementFromTransaction` action from `add_record` is aborted; the
graph only loses the txid from its active set. -/
theorem C10_abort_only_retires_witness :
    c10State.1.abort_transaction c10State.2 =
      ({ c10State.1 with
          active_transactions := setRemove c10State.1.active_transactions c10State.2.txid },
       Except.ok ()) :=
  C10_abort_only_retires c10State.1 c10State.2 (by decide)

end GraphMvcc
